import Mathlib

/-!
Verification of the debugger-core mediation layer (session orchestrator,
DAP/CDP clients, stop/terminate race primitive, persistence, daemon)
against its natural-language specification.

The Python source is shallowly embedded: stateful methods become pure
functions with explicit state passing; asynchronous futures become an
observable status type; environment behaviour that the code awaits
(backend responses, which one-shot signal the event loop completes first)
is passed in as explicit parameters.  Raised exceptions are modelled with
`Except`: a `.error` result of a public entry point stands for an
exception escaping that entry point, while caught exceptions are folded
into the returned values exactly where the source catches them.
-/

namespace DebuggerCore

/-- Observable status of an `asyncio.Future` one-shot slot.
`pending` = created, not done; `completed` = `set_result` was called;
`failed` = `set_exception` was called with the given message;
`cancelled` = `cancel()` was called before completion. -/
inductive FutStatus (α : Type) where
  | pending
  | completed (a : α)
  | failed (msg : String)
  | cancelled
  deriving DecidableEq, Repr

/-- A Python `dict` value used as a message body.  `allocId` models object
identity (the id of the allocation), so that "a fresh copy per call" is
expressible; `fields` are the entries. -/
structure PyDict where
  allocId : Nat
  fields : List (String × String)
  deriving DecidableEq, Repr

/-- Python string truthiness for `a or b` on strings: the empty string is
falsy, so `a or b` is `b` when `a` is empty and `a` otherwise. -/
def pyOr (a b : String) : String :=
  if a = "" then b else a

/-- Character-level worker for `basename`: keep the characters seen
since the last slash. -/
def basenameChars : List Char → List Char → List Char
  | [], acc => acc.reverse
  | c :: rest, acc =>
      if c = '/' then basenameChars rest []
      else basenameChars rest (c :: acc)

/-- `os.path.basename` for the absolute paths this system produces
(separator `/`): the part after the last slash. -/
def basename (p : String) : String :=
  String.mk (basenameChars p.data [])

/-- Python `str.startswith`. -/
def pyStartsWith (s pre : String) : Bool :=
  pre.data.isPrefixOf s.data

/-- Python slicing `s[n:]` (by characters). -/
def pyDrop (s : String) (n : Nat) : String :=
  String.mk (s.data.drop n)

/-- Python `str.capitalize`: first character upper-cased, the rest
lower-cased. -/
def pyCapitalize (s : String) : String :=
  match s.data with
  | [] => ""
  | c :: rest => String.mk (c.toUpper :: rest.map Char.toLower)

/-- `k in m` for a Python dict modelled as an association list. -/
def dictHasKey {α β : Type} [DecidableEq α] (m : List (α × β)) (k : α) : Bool :=
  match m with
  | [] => false
  | p :: rest => if p.1 = k then true else dictHasKey rest k

/-- `m.get(k)` for a Python dict modelled as an insertion-ordered
association list. -/
def dictGet {α β : Type} [DecidableEq α] (m : List (α × β)) (k : α) : Option β :=
  match m with
  | [] => none
  | p :: rest => if p.1 = k then some p.2 else dictGet rest k

/-- Python `dict` assignment `m[k] = v` on a string-keyed dict modelled as
an insertion-ordered association list: overwrite the value at an existing
key in place, else append a new entry at the end. -/
def dictSet {α β : Type} [DecidableEq α] (m : List (α × β)) (k : α) (v : β) :
    List (α × β) :=
  if dictHasKey m k then
    m.map (fun p => if p.1 = k then (k, v) else p)
  else
    m ++ [(k, v)]

/-- Keys of an association list. -/
def dictKeys {α β : Type} (m : List (α × β)) : List α :=
  m.map Prod.fst

-- ===========================================================================
-- protocol.py : the stop/terminate race primitive
-- ===========================================================================

/-- The synthetic body `_TERMINATED_BODY` from protocol.py (field list of
the module-level template dict). -/
def TERMINATED_FIELDS : List (String × String) :=
  [("reason", "terminated"), ("description", "Program exited.")]

/-- Which of the two one-shot signals the event loop reports as completed
first within the timeout window (`asyncio.wait(..., FIRST_COMPLETED)`):
the stopped future, the terminated future, or neither before the timeout
elapses. -/
inductive RaceWinner where
  | stoppedFirst
  | terminatedFirst
  | neither
  deriving DecidableEq, Repr

/-- Everything `wait_for_stop_or_terminate` leaves behind: the value
returned to the caller (`.error` = `asyncio.TimeoutError` raised), the
final status of each signal future, and the allocation counter after the
call (a fresh `dict(...)` copy bumps it). -/
structure RaceReturn where
  result : Except String PyDict
  stoppedFut : FutStatus PyDict
  terminatedFut : FutStatus Unit
  nextAlloc : Nat
  deriving Repr

/-- protocol.wait_for_stop_or_terminate: wait on the stopped and
terminated futures with `FIRST_COMPLETED`; cancel whatever is still
pending; raise `asyncio.TimeoutError` when neither completed; return the
stopped body verbatim when the stopped future won; return
`dict(_TERMINATED_BODY)` — a fresh copy — when the terminated future won.
`stoppedBody` is the value the stopped future completes with when it
wins; `alloc` is the allocation counter before the call. -/
def wait_for_stop_or_terminate (w : RaceWinner) (stoppedBody : PyDict)
    (alloc : Nat) : RaceReturn :=
  match w with
  | .stoppedFirst =>
      { result := .ok stoppedBody
        stoppedFut := .completed stoppedBody
        terminatedFut := .cancelled
        nextAlloc := alloc }
  | .terminatedFirst =>
      { result := .ok { allocId := alloc, fields := TERMINATED_FIELDS }
        stoppedFut := .cancelled
        terminatedFut := .completed ()
        nextAlloc := alloc + 1 }
  | .neither =>
      { result := .error "No stop or terminate within timeout."
        stoppedFut := .cancelled
        terminatedFut := .cancelled
        nextAlloc := alloc }

-- ===========================================================================
-- cdp_client.py : CDP client state and operations
-- ===========================================================================

namespace CDP

/-- The `location` object of a CDP call frame.  Each field models the
corresponding key, `none` = key absent (the source reads every key with
`.get` and a default). -/
structure Location where
  scriptId : Option String
  lineNumber : Option Int
  columnNumber : Option Int
  deriving DecidableEq, Repr

/-- A scope-chain entry of a CDP call frame.  `objectId` models
`scope.get("object", {}).get("objectId", "")` before the default is
applied: `none` covers both a missing `object` dict and a missing
`objectId` key (either way the source sees `""`). -/
structure Scope where
  scopeType : Option String
  objectId : Option String
  deriving DecidableEq, Repr

/-- A raw CDP call frame as cached in `_last_call_frames`. -/
structure CallFrame where
  functionName : Option String
  url : Option String
  location : Option Location
  scopeChain : Option (List Scope)
  callFrameId : Option String
  deriving DecidableEq, Repr

/-- A DAP-shaped stack frame as produced by `_convert_frames`. -/
structure StackFrame where
  id : Nat
  name : String
  sourcePath : String
  sourceName : String
  line : Int
  column : Int
  deriving DecidableEq, Repr

/-- The empty dict default for `cf.get("location", {})`. -/
def emptyLocation : Location := { scriptId := none, lineNumber := none, columnNumber := none }

/-- One step of `CDPClient._convert_frames` at enumeration index `i`:
resolve the URL (frame URL, else script table by script id), strip a
leading `file://`, default the function name to `(anonymous)` when the
key is missing or its value is empty, and convert the 0-based CDP line
and column to 1-based. -/
def convertOne (scripts : List (String × String)) (i : Nat)
    (cf : CallFrame) : StackFrame :=
  let loc := cf.location.getD emptyLocation
  let scriptId := loc.scriptId.getD ""
  let url := pyOr (cf.url.getD "") ((dictGet scripts scriptId).getD "")
  let filePath := if pyStartsWith url "file://" then pyDrop url 7 else url
  { id := i
    name := pyOr (cf.functionName.getD "(anonymous)") "(anonymous)"
    sourcePath := filePath
    sourceName := if filePath = "" then "?" else basename filePath
    line := loc.lineNumber.getD 0 + 1
    column := loc.columnNumber.getD 0 + 1 }

/-- The `for i, cf in enumerate(call_frames)` loop of `_convert_frames`,
carrying the enumeration index. -/
def convertFramesAux (scripts : List (String × String)) (i : Nat) :
    List CallFrame → List StackFrame
  | [] => []
  | cf :: rest => convertOne scripts i cf :: convertFramesAux scripts (i + 1) rest

/-- `CDPClient._convert_frames`: project CDP call frames to DAP-shaped
stack frames, the frame id being the 0-based enumeration index. -/
def convert_frames (scripts : List (String × String))
    (callFrames : List CallFrame) : List StackFrame :=
  convertFramesAux scripts 0 callFrames

/-- The CDP-reason-to-DAP-reason dict literal of `_handle_event`
(`Debugger.paused` branch), read with `.get(reason, reason)`. -/
def mapStopReason (reason : String) : String :=
  (dictGet [("breakpoint", "breakpoint"), ("exception", "exception"),
            ("other", "step")] reason).getD reason

/-- The body a `Debugger.paused` event fulfills the stop signal with. -/
structure StopBody where
  reason : String
  threadId : Int
  deriving DecidableEq, Repr

/-- The client state touched by the `Debugger.paused` branch of
`CDPClient._handle_event`. -/
structure PausedState where
  lastCallFrames : List CallFrame
  lastStackFrames : List StackFrame
  stoppedEvent : Option (FutStatus StopBody)
  deriving DecidableEq, Repr

/-- The `Debugger.paused` branch of `CDPClient._handle_event`:
cache the call frames verbatim, cache their DAP projection, map the stop
reason, and fulfill the stop signal with `{reason, threadId: 1}` when it
exists and is not yet done.  `callFrames` stands for
`params.get("callFrames", [])`; `reasonParam` for the raw `reason` key,
read with default `"other"`. -/
def handlePaused (scripts : List (String × String)) (s : PausedState)
    (callFrames : List CallFrame) (reasonParam : Option String) : PausedState :=
  let reason := reasonParam.getD "other"
  let dapReason := mapStopReason reason
  let body : StopBody := { reason := dapReason, threadId := 1 }
  { lastCallFrames := callFrames
    lastStackFrames := convert_frames scripts callFrames
    stoppedEvent :=
      match s.stoppedEvent with
      | some .pending => some (.completed body)
      | other => other }

/-- The variable-reference table of the CDP client: `_object_ids`
(minted reference to CDP object id) and `_next_var_ref`. -/
structure VarTable where
  objectIds : List (Int × String)
  nextVarRef : Int
  deriving DecidableEq, Repr

/-- The table as initialised in `CDPClient.__init__`. -/
def VarTable.init : VarTable := { objectIds := [], nextVarRef := 1 }

/-- `CDPClient._store_object_id`: the empty (falsy) object id maps to 0
without touching the table; otherwise mint `_next_var_ref`, record the
pair, and advance the counter. -/
def storeObjectId (t : VarTable) (objectId : String) : Int × VarTable :=
  if objectId = "" then (0, t)
  else (t.nextVarRef,
        { objectIds := t.objectIds ++ [(t.nextVarRef, objectId)]
          nextVarRef := t.nextVarRef + 1 })

/-- `CDPClient._get_object_id`: plain table lookup
(`self._object_ids.get(var_ref)`). -/
def getObjectId (t : VarTable) (varRef : Int) : Option String :=
  dictGet t.objectIds varRef

/-- Well-formedness of the variable-reference table, as maintained by the
client: the counter starts at 1 and every minted key is positive and
below the counter (so the reference 0 is never a key). -/
def VarTable.WF (t : VarTable) : Prop :=
  1 ≤ t.nextVarRef ∧ ∀ k ∈ dictKeys t.objectIds, 1 ≤ k ∧ k < t.nextVarRef

/-- A DAP-shaped scope as produced by `CDPClient.scopes`. -/
structure ScopeOut where
  name : String
  variablesReference : Int
  expensive : Bool
  deriving DecidableEq, Repr

/-- The `for scope in scope_chain` loop of `CDPClient.scopes`: label each
scope by its capitalised type, mint a variable reference from its object
id, mark `global` scopes expensive. -/
def scopesLoop (chain : List Scope) (t : VarTable) :
    List ScopeOut × VarTable :=
  match chain with
  | [] => ([], t)
  | scope :: rest =>
      let scopeType := scope.scopeType.getD ""
      let (ref, t2) := storeObjectId t (scope.objectId.getD "")
      let (outs, t3) := scopesLoop rest t2
      ({ name := pyCapitalize scopeType
         variablesReference := ref
         expensive := decide (scopeType = "global") } :: outs, t3)

/-- `CDPClient.scopes`: the frame id is an index into the cached call
frames; out-of-range indices yield an empty scope list without touching
the table; otherwise walk the frame scope chain
(`frame.get("scopeChain", [])`). -/
def scopesOp (lastCallFrames : List CallFrame) (t : VarTable)
    (frameId : Int) : List ScopeOut × VarTable :=
  if frameId < 0 ∨ (lastCallFrames.length : Int) ≤ frameId then ([], t)
  else
    let frame := lastCallFrames.getD frameId.toNat
      { functionName := none, url := none, location := none
        scopeChain := none, callFrameId := none }
    scopesLoop (frame.scopeChain.getD []) t

/-- A CDP remote object (`value_obj` in `CDPClient.variables`).  String
keys are modelled by their string rendering where the source applies
`str(...)`: `primitiveValue` is `str(value_obj["value"])` when the
`value` key is present, `reprText` is the `str(value_obj)` fallback. -/
structure RemoteObject where
  objType : Option String
  primitiveValue : Option String
  description : Option String
  subtype : Option String
  unserializableValue : Option String
  objectId : Option String
  reprText : String
  deriving DecidableEq, Repr

/-- The empty dict default for `prop.get("value", {})`
(`str({})` prints as two braces). -/
def emptyRemoteObject : RemoteObject :=
  { objType := none, primitiveValue := none, description := none
    subtype := none, unserializableValue := none, objectId := none
    reprText := "\x7b\x7d" }

/-- A property descriptor in a `Runtime.getProperties` response. -/
structure PropertyDescriptor where
  name : Option String
  value : Option RemoteObject
  deriving DecidableEq, Repr

/-- A DAP-shaped variable as produced by `CDPClient.variables`. -/
structure VariableOut where
  name : String
  value : String
  varType : String
  variablesReference : Int
  deriving DecidableEq, Repr

/-- The `for prop in resp.get("result", [])` loop of
`CDPClient.variables`: choose the value string in source order
(primitive `value`, `description`, literal `"null"` for null subtype,
`unserializableValue`, else the dict rendering), and mint a child
reference when the property value carries an object id. -/
def variablesLoop (props : List PropertyDescriptor) (t : VarTable) :
    List VariableOut × VarTable :=
  match props with
  | [] => ([], t)
  | prop :: rest =>
      let valueObj := prop.value.getD emptyRemoteObject
      let valueStr :=
        match valueObj.primitiveValue with
        | some v => v
        | none =>
            match valueObj.description with
            | some d => d
            | none =>
                if valueObj.subtype = some "null" then "null"
                else valueObj.unserializableValue.getD valueObj.reprText
      let childOid := valueObj.objectId.getD ""
      let (childRef, t2) :=
        if childOid = "" then (0, t) else storeObjectId t childOid
      let (outs, t3) := variablesLoop rest t2
      ({ name := prop.name.getD "?"
         value := valueStr
         varType := (valueObj.objType).getD ""
         variablesReference := childRef } :: outs, t3)

/-- `CDPClient.variables`: resolve the reference through `_object_ids`;
a falsy resolution (unknown reference, or the reference 0) yields an
empty list without a backend call; a `Runtime.getProperties` failure
(`getProps = .error`) is caught and also yields an empty list; otherwise
project the returned property descriptors. -/
def variablesOp (t : VarTable)
    (getProps : Except String (List PropertyDescriptor))
    (variablesReference : Int) : List VariableOut × VarTable :=
  let objectId := (getObjectId t variablesReference).getD ""
  if objectId = "" then ([], t)
  else
    match getProps with
    | .error _ => ([], t)
    | .ok props => variablesLoop props t

/-- The engine response to one `Debugger.setBreakpointByUrl` call:
the assigned breakpoint id and, when the response carries a non-empty
`locations` array, the 0-based line of `locations[0]`. -/
structure SetBpOutcome where
  breakpointId : String
  resolvedLine : Option Int
  deriving DecidableEq, Repr

/-- One entry of the DAP-shaped `breakpoints` array. -/
structure BpResult where
  verified : Bool
  line : Int
  deriving DecidableEq, Repr

/-- The `for line in lines` loop of `CDPClient.set_breakpoints`.
`engineOutcome line = none` models `Debugger.setBreakpointByUrl` raising
for that line (the engine rejected it; no breakpoint is created and no
id is recorded); `some o` models success.  Returns the DAP-shaped
results, the recorded breakpoint ids for the file, and the requested
lines the engine now holds a breakpoint for. -/
def setBreakpointsLoop (engineOutcome : Int → Option SetBpOutcome) :
    List Int → List BpResult × List String × List Int
  | [] => ([], [], [])
  | line :: rest =>
      let (rs, ids, engLines) := setBreakpointsLoop engineOutcome rest
      match engineOutcome line with
      | some o =>
          ({ verified := true
             line := (o.resolvedLine.map (· + 1)).getD line } :: rs,
           o.breakpointId :: ids, line :: engLines)
      | none =>
          ({ verified := false, line := line } :: rs, ids, engLines)

/-- `CDPClient.set_breakpoints`, viewed per file: each previously
recorded breakpoint id for the file is removed first (removal errors
ignored; the client records exactly the ids it created, so the file has
no engine breakpoints left), then each requested line is set by URL.
The returned triple fully describes the post-state for this file. -/
def set_breakpoints_file (engineOutcome : Int → Option SetBpOutcome)
    (lines : List Int) : List BpResult × List String × List Int :=
  setBreakpointsLoop engineOutcome lines

/-- The signal attributes of a client
(`self.stopped_event` / `self.terminated_event`); `none` = the attribute
is `None`. -/
structure SignalAttrs where
  stoppedEvent : Option (FutStatus PyDict)
  terminatedEvent : Option (FutStatus Unit)
  deriving Repr

/-- The attribute state right after the two `create_future()` assignments
at the top of `continue_` / `next_` / `step_in`, before the resume or
step command is sent: both signals hold fresh pending futures. -/
def resume_signals_installed : SignalAttrs :=
  { stoppedEvent := some .pending, terminatedEvent := some .pending }

/-- What a resume/step call leaves behind: the value returned (or the
timeout raised), the two signal attributes after the call returns, and
the allocation counter. -/
structure ResumeStepReturn where
  result : Except String PyDict
  stoppedEvent : Option (FutStatus PyDict)
  terminatedEvent : Option (FutStatus Unit)
  nextAlloc : Nat
  deriving Repr

/-- `CDPClient.continue_` (and, line for line apart from the CDP method
string, `next_` and `step_in`): install fresh pending futures in both
signal attributes (`resume_signals_installed`), send `Debugger.resume`,
and run the race on those futures.  The attributes keep referring to the
same, now consumed, futures when the call returns; the source never
resets them to `None`. -/
def continue_op (w : RaceWinner) (stopBody : PyDict) (alloc : Nat) :
    ResumeStepReturn :=
  let r := wait_for_stop_or_terminate w stopBody alloc
  { result := r.result
    stoppedEvent := some r.stoppedFut
    terminatedEvent := some r.terminatedFut
    nextAlloc := r.nextAlloc }

end CDP

-- ===========================================================================
-- Read-loop teardown on connection loss (cdp_client.py and dap_client.py)
-- ===========================================================================

/-- The client state the read-loop teardown path can touch: the pending
request table and the two signal attributes. -/
structure ClientConnState where
  pending : List (Int × FutStatus PyDict)
  stoppedEvent : Option (FutStatus PyDict)
  terminatedEvent : Option (FutStatus Unit)
  deriving DecidableEq, Repr

/-- `_fail_pending(reason)` (identical in both clients): call
`set_exception(ConnectionError(reason))` on every not-yet-done pending
future, then clear the table.  Returns the final status each waiting
caller observes, and the cleared table. -/
def failPending (reason : String)
    (pending : List (Int × FutStatus PyDict)) :
    List (Int × FutStatus PyDict) × List (Int × FutStatus PyDict) :=
  (pending.map (fun p =>
      (p.1, match p.2 with
            | .pending => .failed reason
            | st => st)),
   [])

/-- The tail of `CDPClient._read_loop` after the WebSocket closes
(`websockets.ConnectionClosed`) or errors: `_fail_pending("Connection
lost.")` runs; nothing else is touched — in particular neither signal
attribute is changed.  Returns the new state and the statuses delivered
to the formerly pending callers. -/
def CDPClient.read_loop_on_close (s : ClientConnState) :
    ClientConnState × List (Int × FutStatus PyDict) :=
  let (delivered, tbl) := failPending "Connection lost." s.pending
  ({ pending := tbl
     stoppedEvent := s.stoppedEvent
     terminatedEvent := s.terminatedEvent }, delivered)

/-- The tail of `DAPClient._read_loop` after the adapter closes its
stream (`asyncio.IncompleteReadError`) or the loop errors:
`_fail_pending("Adapter connection lost.")` runs; neither signal
attribute is changed. -/
def DAPClient.read_loop_on_close (s : ClientConnState) :
    ClientConnState × List (Int × FutStatus PyDict) :=
  let (delivered, tbl) := failPending "Adapter connection lost." s.pending
  ({ pending := tbl
     stoppedEvent := s.stoppedEvent
     terminatedEvent := s.terminatedEvent }, delivered)

/-- `DAPClient.continue_` / `next_` / `step_in`: the same
install-fresh-futures-then-race pattern as the CDP client (`continue_`
additionally sends `configurationDone` on its first call instead of a
`continue` request, which does not touch the signal attributes). -/
def DAPClient.continue_op (w : RaceWinner) (stopBody : PyDict)
    (alloc : Nat) : CDP.ResumeStepReturn :=
  let r := wait_for_stop_or_terminate w stopBody alloc
  { result := r.result
    stoppedEvent := some r.stoppedFut
    terminatedEvent := some r.terminatedFut
    nextAlloc := r.nextAlloc }

-- ===========================================================================
-- session.py : the orchestrator
-- ===========================================================================

namespace Session

/-- `_CDP_LANGUAGES` from session.py. -/
def CDP_LANGUAGES : List String := ["node"]

/-- `_DAP_LANGUAGES` from session.py. -/
def DAP_LANGUAGES : List String := ["python"]

/-- `_ALL_LANGUAGES = _CDP_LANGUAGES | _DAP_LANGUAGES`. -/
def ALL_LANGUAGES : List String := ["node", "python"]

/-- A Python exception escaping a public entry point. -/
inductive PyExn where
  | fileNotFound (msg : String)
  deriving DecidableEq, Repr

/-- `DebugSession.start`.  `storedLanguage` is `self._language`;
`language` the argument (`none` = not given; a `some ""` argument is
falsy like `None`, per `lang = language or self._language`).
`debugpyImportable` is whether `importlib.util.find_spec("debugpy")`
succeeds; `clientStartLaunch` the combined outcome of
`await self._client.start()` and `await self._client.launch(...)`
(`.error` = either raised).

`PythonAdapter()` is constructed before the `try` block; its
`__init__` calls `_find_debugpy_adapter()`, which raises
`FileNotFoundError` when debugpy is not importable — that exception is
not caught and escapes `start` (result `.error`).  Exceptions inside the
`try` are rendered as `"Error launching debugger: …"` strings. -/
def sessionStart (storedLanguage : Option String) (program : String)
    (language : Option String) (debugpyImportable : Bool)
    (clientStartLaunch : Except String Unit) : Except PyExn String :=
  let lang :=
    match language with
    | some l => if l = "" then storedLanguage.getD "" else l
    | none => storedLanguage.getD ""
  if lang = "" then
    .ok "Error: language must be specified (node | python)"
  else if lang ∉ ALL_LANGUAGES then
    .ok ("Error: unsupported language \x27" ++ lang ++
         "\x27. Choose: node, python")
  else if lang ∈ CDP_LANGUAGES then
    -- CDPClient() construction cannot raise
    match clientStartLaunch with
    | .ok _ =>
        .ok ("Debugger started for " ++ basename program ++ " (" ++ lang ++
             "). Ready for breakpoints.")
    | .error e => .ok ("Error launching debugger: " ++ e)
  else
    -- adapter = PythonAdapter() : outside the try block
    if debugpyImportable then
      match clientStartLaunch with
      | .ok _ =>
          .ok ("Debugger started for " ++ basename program ++ " (" ++ lang ++
               "). Ready for breakpoints.")
      | .error e => .ok ("Error launching debugger: " ++ e)
    else
      .error (.fileNotFound
        "Cannot find debugpy.  Install it with:  pip install debugpy")

/-- The per-file breakpoint bookkeeping shared by both backends
(`DebugSession.add_breakpoint` before the client call): fetch the file
list, append the line only when absent, store the list back. -/
def recordLine (recorded : List (String × List Int)) (file : String)
    (line : Int) : List (String × List Int) × List Int :=
  let existing0 := (dictGet recorded file).getD []
  let existing := if line ∈ existing0 then existing0 else existing0 ++ [line]
  (dictSet recorded file existing, existing)

/-- The reply string of a successful `add_breakpoint`. -/
def bpReply (file : String) (line : Int) (status : String) : String :=
  "Breakpoint at " ++ basename file ++ ":" ++ toString line ++
    " (" ++ status ++ ")"

/-- Result of `DebugSession.add_breakpoint` over a DAP client. -/
structure AddBpDapReturn where
  reply : String
  recorded : List (String × List Int)
  backend : List (String × List Int)
  deriving Repr

/-- `DebugSession.add_breakpoint` with an active DAP client.  `file` is
already absolute (the source applies `os.path.abspath` first).
`adapterResp` is the adapter response to `setBreakpoints` (`.error` =
the request raised).  On success the adapter replaces its breakpoint set
for the file with the sent lines (DAP `setBreakpoints` semantics; the
adapter itself is an external collaborator).  The reply reports
`verified` exactly when every returned breakpoint is verified. -/
def add_breakpoint_dap (recorded backend : List (String × List Int))
    (file : String) (line : Int)
    (adapterResp : Except String (List CDP.BpResult)) : AddBpDapReturn :=
  let (recorded2, existing) := recordLine recorded file line
  match adapterResp with
  | .error e =>
      { reply := "Error setting breakpoint: " ++ e
        recorded := recorded2, backend := backend }
  | .ok bps =>
      let backend2 := dictSet backend file existing
      let verifiedCount := (bps.filter (fun b => b.verified)).length
      let status := if verifiedCount = bps.length then "verified" else "pending"
      { reply := bpReply file line status
        recorded := recorded2, backend := backend2 }

/-- Result of `DebugSession.add_breakpoint` over a CDP client. -/
structure AddBpCdpReturn where
  reply : String
  recorded : List (String × List Int)
  breakpointIds : List String
  engineLines : List Int
  deriving Repr

/-- `DebugSession.add_breakpoint` with an active CDP client.
`CDPClient.set_breakpoints` never raises (each per-line failure is
caught and reported as `verified: false`), so the error branch of
`add_breakpoint` is unreachable here.  `breakpointIds` is
`_breakpoint_ids[file]` after the call and `engineLines` the requested
lines the engine actually holds a breakpoint for. -/
def add_breakpoint_cdp (recorded : List (String × List Int))
    (file : String) (line : Int)
    (engineOutcome : Int → Option CDP.SetBpOutcome) : AddBpCdpReturn :=
  let (recorded2, existing) := recordLine recorded file line
  let (bps, ids, engLines) := CDP.set_breakpoints_file engineOutcome existing
  let verifiedCount := (bps.filter (fun b => b.verified)).length
  let status := if verifiedCount = bps.length then "verified" else "pending"
  { reply := bpReply file line status
    recorded := recorded2, breakpointIds := ids, engineLines := engLines }

/-- The declarative session state persisted across processes. -/
structure SessionState where
  language : Option String
  program : Option String
  breakpoints : List (String × List Int)
  deriving DecidableEq, Repr

/-- The JSON document `DebugSession._save` writes: all three keys are
always present (`language: null` when the language is unset). -/
structure SessionData where
  language : Option String
  program : Option String
  breakpoints : List (String × List Int)
  deriving DecidableEq, Repr

/-- `DebugSession._save`: serialise the three fields. -/
def save (s : SessionState) : SessionData :=
  { language := s.language, program := s.program,
    breakpoints := s.breakpoints }

/-- `DebugSession.from_file_or_new`: restore the three fields when the
persistence file exists (`fileData = some d`; the stored keys are always
present in a file written by `_save`, so `data.get("language", language)`
yields the stored value), else keep the fresh `__init__` state; a truthy
explicit `language` argument then takes precedence
(`if language: session._language = language`). -/
def from_file_or_new (language : Option String)
    (fileData : Option SessionData) : SessionState :=
  let restored : SessionState :=
    match fileData with
    | some d =>
        { language := d.language, program := d.program,
          breakpoints := d.breakpoints }
    | none => { language := none, program := none, breakpoints := [] }
  match language with
  | some l => if l = "" then restored else { restored with language := some l }
  | none => restored

end Session

-- ===========================================================================
-- daemon.py : TCP action dispatch
-- ===========================================================================

namespace Daemon

/-- The keys of `_ACTION_TABLE`. -/
def ACTION_NAMES : List String :=
  ["breakpoint", "resume", "step", "inspect", "variables", "stack", "stop"]

/-- One line-delimited JSON reply on the daemon socket. -/
inductive WireReply where
  | result (s : String)
  | error (s : String)
  deriving DecidableEq, Repr

/-- `SessionDaemon._dispatch`: look the action up in `_ACTION_TABLE`; an
unknown action returns the plain string `"Unknown daemon action: …"`
(which the caller wraps as a result, not an error); a known action runs
its handler, whose outcome is supplied by the environment (`.error` =
the handler raised, e.g. a missing payload key or a session failure). -/
def dispatch (action : String) (handler : Except String String) :
    Except String String :=
  if action ∈ ACTION_NAMES then handler
  else .ok ("Unknown daemon action: " ++ action)

/-- `SessionDaemon._handle_client` for one connection.  `request` is the
parse outcome of the received line: `.error e` = `json.loads` (or the
read) raised with message `e`; `.ok (action, handler)` = a parsed
command (`action` is `cmd.get("action", "")`) together with its handler
outcome.  The reply mirrors the source: a normal dispatch value becomes
`{"result": …}`, any exception becomes `{"error": …}`.  The Booleans
are (connection closed, daemon still serving): the `finally` block
always closes the writer, and no path escapes the handler, so the accept
loop always continues. -/
def handle_client
    (request : Except String (String × Except String String)) :
    WireReply × Bool × Bool :=
  match request with
  | .error e => (.error e, true, true)
  | .ok (action, handler) =>
      match dispatch action handler with
      | .ok r => (.result r, true, true)
      | .error e => (.error e, true, true)

end Daemon

-- ===========================================================================
-- Shared lemmas
-- ===========================================================================

theorem dictGet_dictSet {α β : Type} [DecidableEq α] (m : List (α × β)) (k : α)
    (v : β) : dictGet (dictSet m k v) k = some v := by
  unfold dictSet
  split
  case isTrue h =>
    induction m with
    | nil => simp [dictHasKey] at h
    | cons p rest ih =>
      by_cases hp : p.1 = k
      · simp [dictGet, hp]
      · simp only [dictHasKey, hp, if_false] at h
        simp [dictGet, hp, ih h]
  case isFalse h =>
    induction m with
    | nil => simp [dictGet]
    | cons p rest ih =>
      simp only [dictHasKey] at h
      by_cases hp : p.1 = k
      · simp [hp] at h
      · simp only [hp, if_false] at h
        simp [dictGet, hp, ih h]

theorem dictGet_overwrite_ne {α β : Type} [DecidableEq α] (m : List (α × β))
    (k j : α) (v : β) (hne : j ≠ k) :
    dictGet (m.map (fun p => if p.1 = k then (k, v) else p)) j =
      dictGet m j := by
  induction m with
  | nil => simp [dictGet]
  | cons p rest ih =>
    by_cases hp : p.1 = k
    · have hkj : k ≠ j := fun hkj => hne hkj.symm
      have hpj : p.1 ≠ j := by rw [hp]; exact hkj
      simp [dictGet, hp, hkj, hpj, ih]
    · by_cases hpj : p.1 = j
      · simp [dictGet, hp, hpj, hne]
      · simp [dictGet, hp, hpj, ih]

theorem dictGet_append_ne {α β : Type} [DecidableEq α] (m : List (α × β))
    (k j : α) (v : β) (hne : j ≠ k) :
    dictGet (m ++ [(k, v)]) j = dictGet m j := by
  induction m with
  | nil => simp [dictGet, Ne.symm hne]
  | cons p rest ih =>
    by_cases hpj : p.1 = j
    · simp [dictGet, hpj]
    · simp [dictGet, hpj, ih]

theorem dictGet_dictSet_ne {α β : Type} [DecidableEq α] (m : List (α × β)) (k j : α)
    (v : β) (hne : j ≠ k) : dictGet (dictSet m k v) j = dictGet m j := by
  unfold dictSet
  split
  · exact dictGet_overwrite_ne m k j v hne
  · exact dictGet_append_ne m k j v hne

-- ===========================================================================
-- Claim C1
-- ===========================================================================

/-- C1: the claim says every public orchestrator command renders every
failure as an `"Error…"` string and never lets an exception escape; in
particular `start(program, language)` with an unresolvable backend (the
Python adapter module missing) returns such a string rather than
raising.  The code violates this: `PythonAdapter()` is constructed
before the `try` block of `DebugSession.start`, so when debugpy is not
importable the `FileNotFoundError` raised by `_find_debugpy_adapter`
escapes `start` instead of being rendered as a string. -/
theorem claim_C1_start_raises_when_debugpy_missing :
    Session.sessionStart none "app.py" (some "python") false (.ok ()) =
      .error (.fileNotFound
        "Cannot find debugpy.  Install it with:  pip install debugpy") := by
  rfl

-- ===========================================================================
-- Claim C2
-- ===========================================================================

/-- C2: for every call to `wait_for_stop_or_terminate`, exactly one of
three outcomes occurs — the stop body is returned verbatim when the stop
signal completes first; a fresh copy of the synthetic terminated body is
returned when the terminate signal completes first (fresh per call:
consecutive calls return bodies with the terminated fields but distinct
identities); a timeout error is raised when neither completes — and the
signal that did not win is cancelled. -/
theorem claim_C2_stop_terminate_race (w : RaceWinner) (body body2 : PyDict)
    (n : Nat) :
    (w = .stoppedFirst →
      (wait_for_stop_or_terminate w body n).result = .ok body ∧
      (wait_for_stop_or_terminate w body n).terminatedFut = .cancelled) ∧
    (w = .terminatedFirst →
      (wait_for_stop_or_terminate w body n).result =
        .ok { allocId := n, fields := TERMINATED_FIELDS } ∧
      (wait_for_stop_or_terminate w body n).stoppedFut = .cancelled) ∧
    (w = .neither →
      (wait_for_stop_or_terminate w body n).result =
        .error "No stop or terminate within timeout." ∧
      (wait_for_stop_or_terminate w body n).stoppedFut = .cancelled ∧
      (wait_for_stop_or_terminate w body n).terminatedFut = .cancelled) ∧
    (∃ d1 d2 : PyDict,
      (wait_for_stop_or_terminate .terminatedFirst body n).result = .ok d1 ∧
      (wait_for_stop_or_terminate .terminatedFirst body2
        (wait_for_stop_or_terminate .terminatedFirst body n).nextAlloc).result
        = .ok d2 ∧
      d1.fields = TERMINATED_FIELDS ∧ d2.fields = TERMINATED_FIELDS ∧
      d1.allocId ≠ d2.allocId) := by
  refine ⟨?_, ?_, ?_, ?_⟩
  · intro h; subst h; exact ⟨rfl, rfl⟩
  · intro h; subst h; exact ⟨rfl, rfl⟩
  · intro h; subst h; exact ⟨rfl, rfl, rfl⟩
  · exact ⟨{ allocId := n, fields := TERMINATED_FIELDS },
           { allocId := n + 1, fields := TERMINATED_FIELDS },
           rfl, rfl, rfl, rfl, by simp⟩

/-- Witness for C2 at concrete inputs: each of the three outcomes at a
concrete body and allocation counter. -/
theorem claim_C2_stop_terminate_race_witness :
    (wait_for_stop_or_terminate .stoppedFirst
        { allocId := 7, fields := [("reason", "breakpoint")] } 3).result =
      .ok { allocId := 7, fields := [("reason", "breakpoint")] } ∧
    (wait_for_stop_or_terminate .terminatedFirst
        { allocId := 7, fields := [] } 3).result =
      .ok { allocId := 3, fields := TERMINATED_FIELDS } ∧
    (wait_for_stop_or_terminate .neither
        { allocId := 7, fields := [] } 3).result =
      .error "No stop or terminate within timeout." :=
  ⟨((claim_C2_stop_terminate_race .stoppedFirst
      { allocId := 7, fields := [("reason", "breakpoint")] }
      { allocId := 0, fields := [] } 3).1 rfl).1,
   ((claim_C2_stop_terminate_race .terminatedFirst
      { allocId := 7, fields := [] }
      { allocId := 0, fields := [] } 3).2.1 rfl).1,
   ((claim_C2_stop_terminate_race .neither
      { allocId := 7, fields := [] }
      { allocId := 0, fields := [] } 3).2.2.1 rfl).1⟩

-- ===========================================================================
-- Claim C6
-- ===========================================================================

/-- C6: saving the session state and restoring it via
`from_file_or_new` with no explicit language (or the same language)
yields the identical `(language, program, breakpoints)` tuple, the
breakpoints as ordered per-file sequences; an explicit language argument
takes precedence over the stored one. -/
theorem claim_C6_persistence_roundtrip (s : Session.SessionState)
    (l : String) (hl : l ≠ "") (d : Option Session.SessionData) :
    Session.from_file_or_new none (some (Session.save s)) = s ∧
    (s.language = some l →
      Session.from_file_or_new (some l) (some (Session.save s)) = s) ∧
    (Session.from_file_or_new (some l) d).language = some l := by
  refine ⟨?_, ?_, ?_⟩
  · cases s; rfl
  · intro h
    cases s
    simp only [Session.from_file_or_new, Session.save, hl, if_neg]
    simp_all
  · cases d <;> simp [Session.from_file_or_new, hl]

/-- Witness for C6 at a concrete session state. -/
theorem claim_C6_persistence_roundtrip_witness :
    Session.from_file_or_new none
        (some (Session.save
          { language := some "node", program := some "/tmp/app.js",
            breakpoints := [("/tmp/app.js", [3, 1])] })) =
      { language := some "node", program := some "/tmp/app.js",
        breakpoints := [("/tmp/app.js", [3, 1])] } ∧
    Session.from_file_or_new (some "node")
        (some (Session.save
          { language := some "node", program := some "/tmp/app.js",
            breakpoints := [("/tmp/app.js", [3, 1])] })) =
      { language := some "node", program := some "/tmp/app.js",
        breakpoints := [("/tmp/app.js", [3, 1])] } ∧
    (Session.from_file_or_new (some "python") none).language = some "python" := by
  have h := claim_C6_persistence_roundtrip
    { language := some "node", program := some "/tmp/app.js",
      breakpoints := [("/tmp/app.js", [3, 1])] } "node" (by decide) none
  have h2 := claim_C6_persistence_roundtrip
    { language := some "node", program := some "/tmp/app.js",
      breakpoints := [("/tmp/app.js", [3, 1])] } "python" (by decide) none
  exact ⟨h.1, h.2.1 rfl, h2.2.2⟩

-- ===========================================================================
-- Claim C7
-- ===========================================================================

/-- C7 counterexample: the claim says a request whose `action` is not a
known action name is replied to with `{"error": …}`.  The code instead
returns the plain string `"Unknown daemon action: …"` from `_dispatch`,
which `_handle_client` wraps as a `{"result": …}` reply. -/
theorem claim_C7_unknown_action_counterexample :
    Daemon.handle_client (.ok ("frobnicate", .ok "")) =
      (.result "Unknown daemon action: frobnicate", true, true) ∧
    ¬ ∃ msg, (Daemon.handle_client (.ok ("frobnicate", .ok ""))).1 =
        Daemon.WireReply.error msg := by
  constructor
  · rfl
  · rintro ⟨msg, hm⟩
    rw [show (Daemon.handle_client (.ok ("frobnicate", .ok ""))).1 =
        Daemon.WireReply.result "Unknown daemon action: frobnicate" from rfl] at hm
    cases hm

/-- C7 amended: invalid JSON (or any read/parse exception) yields an
`{"error": …}` reply; an unknown action yields a normal
`{"result": "Unknown daemon action: …"}` reply, not an error; a known
action returns its handler value as a result, and a handler exception
becomes an `{"error": …}` reply.  In every case the connection is closed
and the daemon continues serving. -/
theorem claim_C7_amended_daemon_replies (e a rs : String)
    (handler : Except String String) :
    Daemon.handle_client (.error e) = (.error e, true, true) ∧
    (a ∉ Daemon.ACTION_NAMES →
      Daemon.handle_client (.ok (a, handler)) =
        (.result ("Unknown daemon action: " ++ a), true, true)) ∧
    (a ∈ Daemon.ACTION_NAMES → handler = .ok rs →
      Daemon.handle_client (.ok (a, handler)) = (.result rs, true, true)) ∧
    (a ∈ Daemon.ACTION_NAMES → handler = .error rs →
      Daemon.handle_client (.ok (a, handler)) = (.error rs, true, true)) := by
  refine ⟨rfl, ?_, ?_, ?_⟩
  · intro h
    simp [Daemon.handle_client, Daemon.dispatch, h]
  · intro h hok; subst hok
    simp [Daemon.handle_client, Daemon.dispatch, h]
  · intro h herr; subst herr
    simp [Daemon.handle_client, Daemon.dispatch, h]

/-- Witness for C7 amended at concrete requests. -/
theorem claim_C7_amended_daemon_replies_witness :
    Daemon.handle_client (.error "Expecting value: line 1 column 1 (char 0)") =
      (.error "Expecting value: line 1 column 1 (char 0)", true, true) ∧
    Daemon.handle_client (.ok ("zap", .ok "x")) =
      (.result "Unknown daemon action: zap", true, true) ∧
    Daemon.handle_client (.ok ("resume", .ok "Stopped at app.js:3 (breakpoint)")) =
      (.result "Stopped at app.js:3 (breakpoint)", true, true) ∧
    Daemon.handle_client (.ok ("inspect", .error "KeyError: expression")) =
      (.error "KeyError: expression", true, true) := by
  have h1 := claim_C7_amended_daemon_replies
    "Expecting value: line 1 column 1 (char 0)" "zap" "x" (.ok "x")
  have h2 := claim_C7_amended_daemon_replies "" "resume"
    "Stopped at app.js:3 (breakpoint)" (.ok "Stopped at app.js:3 (breakpoint)")
  have h3 := claim_C7_amended_daemon_replies "" "inspect"
    "KeyError: expression" (.error "KeyError: expression")
  exact ⟨h1.1, h1.2.1 (by decide), h2.2.2.1 (by decide) rfl,
         h3.2.2.2 (by decide) rfl⟩

-- ===========================================================================
-- Claim C8
-- ===========================================================================

/-- C8: the CDP client maps the CDP stop reason to DAP vocabulary as a
function — breakpoint to breakpoint, exception to exception, other to
step, and any other reason passes through unchanged — and the
`Debugger.paused` handler fulfills a pending stop signal with
`{reason: mapped, threadId: 1}`. -/
theorem claim_C8_stop_reason_mapping (scripts : List (String × String))
    (s : CDP.PausedState) (callFrames : List CDP.CallFrame)
    (reasonParam : Option String) (r : String)
    (hr : r ∉ ["breakpoint", "exception", "other"]) :
    CDP.mapStopReason "breakpoint" = "breakpoint" ∧
    CDP.mapStopReason "exception" = "exception" ∧
    CDP.mapStopReason "other" = "step" ∧
    CDP.mapStopReason r = r ∧
    (s.stoppedEvent = some .pending →
      (CDP.handlePaused scripts s callFrames reasonParam).stoppedEvent =
        some (.completed
          { reason := CDP.mapStopReason (reasonParam.getD "other")
            threadId := 1 })) := by
  refine ⟨rfl, rfl, rfl, ?_, ?_⟩
  · simp only [List.mem_cons, List.mem_singleton, not_or] at hr
    obtain ⟨h1, h2, h3, _⟩ := hr
    simp [CDP.mapStopReason, dictGet, Ne.symm h1, Ne.symm h2, Ne.symm h3]
  · intro h
    simp [CDP.handlePaused, h]

/-- Witness for C8: an unlisted reason passes through and a pending stop
signal is fulfilled with the mapped body. -/
theorem claim_C8_stop_reason_mapping_witness :
    CDP.mapStopReason "promiseRejection" = "promiseRejection" ∧
    (CDP.handlePaused []
        { lastCallFrames := [], lastStackFrames := [],
          stoppedEvent := some .pending }
        [] (some "other")).stoppedEvent =
      some (.completed { reason := "step", threadId := 1 }) := by
  have h := claim_C8_stop_reason_mapping []
    { lastCallFrames := [], lastStackFrames := [],
      stoppedEvent := some .pending }
    [] (some "other") "promiseRejection" (by decide)
  refine ⟨h.2.2.2.1, ?_⟩
  have h2 := h.2.2.2.2 rfl
  simpa using h2

-- ===========================================================================
-- Claim C3
-- ===========================================================================

/-- C3 counterexample: the claim says that on connection loss with a
resume/step in flight, the terminate signal is fulfilled so the race
returns the synthetic termination body.  The code does not do this:
`_read_loop` only calls `_fail_pending`, which touches the pending
request table and never the signal attributes.  Concretely, with one
pending request and both signals pending (a resume in flight), the
teardown leaves the terminate signal pending — not completed — so the
in-flight race waits out its timeout. -/
theorem claim_C3_terminate_signal_not_fulfilled :
    (CDPClient.read_loop_on_close
        { pending := [(7, .pending)], stoppedEvent := some .pending,
          terminatedEvent := some .pending }).1.terminatedEvent =
      some .pending ∧
    (CDPClient.read_loop_on_close
        { pending := [(7, .pending)], stoppedEvent := some .pending,
          terminatedEvent := some .pending }).1.terminatedEvent ≠
      some (.completed ()) ∧
    (DAPClient.read_loop_on_close
        { pending := [(7, .pending)], stoppedEvent := some .pending,
          terminatedEvent := some .pending }).1.terminatedEvent ≠
      some (.completed ()) := by
  refine ⟨rfl, ?_, ?_⟩ <;> intro h <;> cases h

/-- C3 amended: when either reader loop observes connection loss with K
pending requests, after teardown the pending table is empty and each of
the K waiting callers receives a connection-lost error; the signal
attributes are left untouched — in particular the terminate signal is
NOT fulfilled, so an in-flight resume/step is not unblocked by the
teardown. -/
theorem claim_C3_amended_connection_loss (s : ClientConnState) :
    (CDPClient.read_loop_on_close s).1.pending = [] ∧
    ((CDPClient.read_loop_on_close s).2).length = s.pending.length ∧
    (∀ k st, (k, st) ∈ s.pending → st = .pending →
      (k, FutStatus.failed "Connection lost.") ∈
        (CDPClient.read_loop_on_close s).2) ∧
    (CDPClient.read_loop_on_close s).1.stoppedEvent = s.stoppedEvent ∧
    (CDPClient.read_loop_on_close s).1.terminatedEvent = s.terminatedEvent ∧
    (DAPClient.read_loop_on_close s).1.pending = [] ∧
    (∀ k st, (k, st) ∈ s.pending → st = .pending →
      (k, FutStatus.failed "Adapter connection lost.") ∈
        (DAPClient.read_loop_on_close s).2) ∧
    (DAPClient.read_loop_on_close s).1.stoppedEvent = s.stoppedEvent ∧
    (DAPClient.read_loop_on_close s).1.terminatedEvent = s.terminatedEvent := by
  refine ⟨rfl, ?_, ?_, rfl, rfl, rfl, ?_, rfl, rfl⟩
  · simp [CDPClient.read_loop_on_close, failPending]
  · intro k st hmem hst
    subst hst
    simp only [CDPClient.read_loop_on_close, failPending]
    exact List.mem_map.mpr ⟨(k, .pending), hmem, rfl⟩
  · intro k st hmem hst
    subst hst
    simp only [DAPClient.read_loop_on_close, failPending]
    exact List.mem_map.mpr ⟨(k, .pending), hmem, rfl⟩

/-- Witness for C3 amended with two pending requests. -/
theorem claim_C3_amended_connection_loss_witness :
    (CDPClient.read_loop_on_close
        { pending := [(4, .pending), (5, .pending)],
          stoppedEvent := none, terminatedEvent := none }).1.pending = [] ∧
    (4, FutStatus.failed "Connection lost.") ∈
      (CDPClient.read_loop_on_close
        { pending := [(4, .pending), (5, .pending)],
          stoppedEvent := none, terminatedEvent := none }).2 ∧
    (5, FutStatus.failed "Adapter connection lost.") ∈
      (DAPClient.read_loop_on_close
        { pending := [(4, .pending), (5, .pending)],
          stoppedEvent := none, terminatedEvent := none }).2 := by
  have h := claim_C3_amended_connection_loss
    { pending := [(4, .pending), (5, .pending)],
      stoppedEvent := none, terminatedEvent := none }
  exact ⟨h.1, h.2.2.1 4 .pending (by decide) rfl,
         h.2.2.2.2.2.2.1 5 .pending (by decide) rfl⟩

-- ===========================================================================
-- Claim C4
-- ===========================================================================

/-- C4 counterexample: the claim says that by the time a resume/step
call returns, both signal attributes are null.  The code never resets
them: after `continue_` returns they still hold the consumed futures.
Concretely, after a resume during which the stop signal won, both
attributes are non-null. -/
theorem claim_C4_signals_not_null_after_return :
    (CDP.continue_op .stoppedFirst
        { allocId := 2, fields := [("reason", "breakpoint")] } 0).stoppedEvent
      ≠ none ∧
    (CDP.continue_op .stoppedFirst
        { allocId := 2, fields := [("reason", "breakpoint")] } 0).terminatedEvent
      ≠ none ∧
    (DAPClient.continue_op .stoppedFirst
        { allocId := 2, fields := [("reason", "breakpoint")] } 0).stoppedEvent
      ≠ none := by
  refine ⟨?_, ?_, ?_⟩ <;> intro h <;> cases h

/-- C4 amended: both signals are replaced with fresh one-shot pending
futures before the resume/step is issued, and by the time the call
returns both futures have been consumed by the race (no longer pending:
completed or cancelled); but the attributes are not reset to null — they
keep referring to the consumed futures until the next resume/step
installs fresh ones. -/
theorem claim_C4_amended_signal_lifecycle (w : RaceWinner) (body : PyDict)
    (n : Nat) :
    CDP.resume_signals_installed.stoppedEvent = some .pending ∧
    CDP.resume_signals_installed.terminatedEvent = some .pending ∧
    (CDP.continue_op w body n).stoppedEvent ≠ none ∧
    (CDP.continue_op w body n).terminatedEvent ≠ none ∧
    (∀ fut, (CDP.continue_op w body n).stoppedEvent = some fut →
      fut ≠ .pending) ∧
    (∀ fut, (CDP.continue_op w body n).terminatedEvent = some fut →
      fut ≠ .pending) ∧
    (DAPClient.continue_op w body n).stoppedEvent ≠ none ∧
    (DAPClient.continue_op w body n).terminatedEvent ≠ none ∧
    (∀ fut, (DAPClient.continue_op w body n).stoppedEvent = some fut →
      fut ≠ .pending) ∧
    (∀ fut, (DAPClient.continue_op w body n).terminatedEvent = some fut →
      fut ≠ .pending) := by
  cases w <;>
    refine ⟨rfl, rfl, ?_, ?_, ?_, ?_, ?_, ?_, ?_, ?_⟩ <;>
    simp [CDP.continue_op, DAPClient.continue_op, wait_for_stop_or_terminate]

/-- Witness for C4 amended: a resume that timed out leaves both
attributes holding cancelled futures. -/
theorem claim_C4_amended_signal_lifecycle_witness :
    (CDP.continue_op .neither { allocId := 0, fields := [] } 0).stoppedEvent
      ≠ none ∧
    FutStatus.cancelled (α := PyDict) ≠ .pending ∧
    (CDP.continue_op .neither { allocId := 0, fields := [] } 0).stoppedEvent
      = some .cancelled := by
  have h := claim_C4_amended_signal_lifecycle .neither
    { allocId := 0, fields := [] } 0
  exact ⟨h.2.2.1, h.2.2.2.2.1 .cancelled rfl, rfl⟩

-- ===========================================================================
-- Claim C9
-- ===========================================================================

theorem convertFramesAux_length (scripts : List (String × String)) (i : Nat)
    (l : List CDP.CallFrame) :
    (CDP.convertFramesAux scripts i l).length = l.length := by
  induction l generalizing i with
  | nil => rfl
  | cons cf rest ih => simp [CDP.convertFramesAux, ih]

theorem convertFramesAux_get (scripts : List (String × String)) (i : Nat)
    (l : List CDP.CallFrame) (j : Nat) (h : j < l.length)
    (h2 : j < (CDP.convertFramesAux scripts i l).length) :
    (CDP.convertFramesAux scripts i l).get ⟨j, h2⟩ =
      CDP.convertOne scripts (i + j) (l.get ⟨j, h⟩) := by
  induction l generalizing i j with
  | nil => exact absurd h (Nat.not_lt_zero j)
  | cons cf rest ih =>
    cases j with
    | zero => rfl
    | succ j =>
      have harith : i + (j + 1) = (i + 1) + j := by omega
      simp only [CDP.convertFramesAux, List.get, harith]
      exact ih (i + 1) j (Nat.lt_of_succ_lt_succ h) _

/-- C9: projecting CDP call frames to DAP stack frames preserves order
(same length, the frame at index j comes from the call frame at index
j), assigns each frame id as its 0-based index, converts 0-based lines
and columns to 1-based, uses `(anonymous)` when the function name is
missing or empty, and derives the source path from the frame URL with a
leading `file://` stripped, falling back to the script table by script
id when the URL is missing or empty. -/
theorem claim_C9_frame_projection (scripts : List (String × String))
    (frames : List CDP.CallFrame) (j : Nat) (h : j < frames.length)
    (h2 : j < (CDP.convert_frames scripts frames).length) :
    (CDP.convert_frames scripts frames).length = frames.length ∧
    ((CDP.convert_frames scripts frames).get ⟨j, h2⟩).id = j ∧
    ((CDP.convert_frames scripts frames).get ⟨j, h2⟩).line =
      ((frames.get ⟨j, h⟩).location.getD CDP.emptyLocation).lineNumber.getD 0
        + 1 ∧
    ((CDP.convert_frames scripts frames).get ⟨j, h2⟩).column =
      ((frames.get ⟨j, h⟩).location.getD CDP.emptyLocation).columnNumber.getD 0
        + 1 ∧
    (((frames.get ⟨j, h⟩).functionName = none ∨
        (frames.get ⟨j, h⟩).functionName = some "") →
      ((CDP.convert_frames scripts frames).get ⟨j, h2⟩).name = "(anonymous)") ∧
    (∀ fn, (frames.get ⟨j, h⟩).functionName = some fn → fn ≠ "" →
      ((CDP.convert_frames scripts frames).get ⟨j, h2⟩).name = fn) ∧
    (∀ u, (frames.get ⟨j, h⟩).url = some u → u ≠ "" →
      pyStartsWith u "file://" = true →
      ((CDP.convert_frames scripts frames).get ⟨j, h2⟩).sourcePath =
        pyDrop u 7) ∧
    (∀ u, (frames.get ⟨j, h⟩).url = some u → u ≠ "" →
      pyStartsWith u "file://" = false →
      ((CDP.convert_frames scripts frames).get ⟨j, h2⟩).sourcePath = u) ∧
    (((frames.get ⟨j, h⟩).url = none ∨ (frames.get ⟨j, h⟩).url = some "") →
      ∀ su, (dictGet scripts
          (((frames.get ⟨j, h⟩).location.getD
              CDP.emptyLocation).scriptId.getD "")).getD "" = su →
        ((CDP.convert_frames scripts frames).get ⟨j, h2⟩).sourcePath =
          (if pyStartsWith su "file://" then pyDrop su 7 else su)) := by
  have key : (CDP.convert_frames scripts frames).get ⟨j, h2⟩ =
      CDP.convertOne scripts j (frames.get ⟨j, h⟩) := by
    have := convertFramesAux_get scripts 0 frames j h h2
    simpa [CDP.convert_frames] using this
  refine ⟨by simpa [CDP.convert_frames] using
      convertFramesAux_length scripts 0 frames,
    ?_, ?_, ?_, ?_, ?_, ?_, ?_, ?_⟩
  · rw [key]; rfl
  · rw [key]; rfl
  · rw [key]; rfl
  · rintro (hfn | hfn) <;> rw [key] <;>
      rw [List.get_eq_getElem] at hfn <;>
      simp [CDP.convertOne, hfn, pyOr]
  · intro fn hfn hne
    rw [key]
    rw [List.get_eq_getElem] at hfn
    simp [CDP.convertOne, hfn, pyOr, hne]
  · intro u hu hne hsw
    rw [key]
    rw [List.get_eq_getElem] at hu
    simp [CDP.convertOne, hu, pyOr, hne, hsw]
  · intro u hu hne hsw
    rw [key]
    rw [List.get_eq_getElem] at hu
    simp [CDP.convertOne, hu, pyOr, hne, hsw]
  · rintro (hu | hu) <;> intro su hsu <;> rw [key] <;>
      rw [List.get_eq_getElem] at hu hsu <;>
      simp [CDP.convertOne, hu, pyOr, hsu]

/-- Witness for C9 at a concrete script table and call-frame list. -/
theorem claim_C9_frame_projection_witness :
    ((CDP.convert_frames [("s1", "file:///tmp/app.js")]
        [{ functionName := some "", url := none,
           location := some { scriptId := some "s1", lineNumber := some 2,
                              columnNumber := some 4 },
           scopeChain := none, callFrameId := none }]).get
      ⟨0, by simp [CDP.convert_frames, CDP.convertFramesAux]⟩).name =
        "(anonymous)" ∧
    ((CDP.convert_frames [("s1", "file:///tmp/app.js")]
        [{ functionName := some "", url := none,
           location := some { scriptId := some "s1", lineNumber := some 2,
                              columnNumber := some 4 },
           scopeChain := none, callFrameId := none }]).get
      ⟨0, by simp [CDP.convert_frames, CDP.convertFramesAux]⟩).line = 3 ∧
    ((CDP.convert_frames [("s1", "file:///tmp/app.js")]
        [{ functionName := some "", url := none,
           location := some { scriptId := some "s1", lineNumber := some 2,
                              columnNumber := some 4 },
           scopeChain := none, callFrameId := none }]).get
      ⟨0, by simp [CDP.convert_frames, CDP.convertFramesAux]⟩).sourcePath =
        "/tmp/app.js" := by
  have h := claim_C9_frame_projection [("s1", "file:///tmp/app.js")]
    [{ functionName := some "", url := none,
       location := some { scriptId := some "s1", lineNumber := some 2,
                          columnNumber := some 4 },
       scopeChain := none, callFrameId := none }]
    0 (by simp) (by simp [CDP.convert_frames, CDP.convertFramesAux])
  refine ⟨h.2.2.2.2.1 (Or.inr rfl), ?_, ?_⟩
  · have := h.2.2.1
    simpa using this
  · have := h.2.2.2.2.2.2.2.2 (Or.inl rfl) "file:///tmp/app.js"
      (by simp [dictGet])
    rw [this]
    rw [show pyStartsWith "file:///tmp/app.js" "file://" = true by decide]
    simp
    decide

-- ===========================================================================
-- Claim C10
-- ===========================================================================

theorem dictGet_eq_none_of_not_mem_keys {α β : Type} [DecidableEq α]
    (m : List (α × β)) (k : α) (h : k ∉ dictKeys m) : dictGet m k = none := by
  induction m with
  | nil => rfl
  | cons p rest ih =>
    simp only [dictKeys, List.map_cons, List.mem_cons, not_or] at h
    have hp : p.1 ≠ k := fun hpk => h.1 hpk.symm
    simp only [dictGet, hp, if_false]
    exact ih (by simpa [dictKeys] using h.2)

theorem VarTable_init_WF : CDP.VarTable.WF CDP.VarTable.init := by
  constructor
  · exact le_refl 1
  · intro k hk
    simp [CDP.VarTable.init, dictKeys] at hk

theorem storeObjectId_WF (t : CDP.VarTable) (oid : String)
    (hwf : CDP.VarTable.WF t) :
    CDP.VarTable.WF (CDP.storeObjectId t oid).2 := by
  unfold CDP.storeObjectId
  split
  · exact hwf
  · obtain ⟨h1, h2⟩ := hwf
    constructor
    · show 1 ≤ t.nextVarRef + 1
      omega
    · intro k hk
      show 1 ≤ k ∧ k < t.nextVarRef + 1
      replace hk : k ∈ dictKeys (t.objectIds ++ [(t.nextVarRef, oid)]) := hk
      simp only [dictKeys, List.map_append, List.mem_append, List.map_cons,
        List.map_nil, List.mem_cons, List.not_mem_nil, or_false] at hk
      rcases hk with hk | hk
      · have := h2 k (by simpa [dictKeys] using hk)
        omega
      · subst hk
        omega

theorem getObjectId_zero_of_WF (t : CDP.VarTable)
    (hwf : CDP.VarTable.WF t) : CDP.getObjectId t 0 = none := by
  apply dictGet_eq_none_of_not_mem_keys
  intro hmem
  have := hwf.2 0 hmem
  omega

/-- C10: for every frame id outside `[0, number of cached call frames)`,
`scopes` returns an empty scope list without raising and without
touching the reference table; and for every variables reference that is
0 or absent from the reference table (any reference never minted),
`variables` returns an empty variable list without raising and without a
backend call. -/
theorem claim_C10_out_of_range_safety (frames : List CDP.CallFrame)
    (t : CDP.VarTable)
    (getProps : Except String (List CDP.PropertyDescriptor))
    (frameId ref : Int) (hwf : CDP.VarTable.WF t) :
    ((frameId < 0 ∨ (frames.length : Int) ≤ frameId) →
      CDP.scopesOp frames t frameId = ([], t)) ∧
    ((ref = 0 ∨ CDP.getObjectId t ref = none) →
      CDP.variablesOp t getProps ref = ([], t)) := by
  constructor
  · intro h
    unfold CDP.scopesOp
    rw [if_pos h]
  · intro h
    have hnone : CDP.getObjectId t ref = none := by
      rcases h with h0 | hn
      · subst h0; exact getObjectId_zero_of_WF t hwf
      · exact hn
    unfold CDP.variablesOp
    rw [hnone]
    rfl

/-- Witness for C10: the fresh table, an out-of-range frame id, and the
reference 0. -/
theorem claim_C10_out_of_range_safety_witness :
    CDP.scopesOp [] CDP.VarTable.init 5 = ([], CDP.VarTable.init) ∧
    CDP.variablesOp CDP.VarTable.init (.ok []) 0 =
      ([], CDP.VarTable.init) := by
  have h := claim_C10_out_of_range_safety [] CDP.VarTable.init (.ok []) 5 0
    VarTable_init_WF
  exact ⟨h.1 (Or.inr (by decide)), h.2 (Or.inl rfl)⟩

-- ===========================================================================
-- Claim C5
-- ===========================================================================

theorem recordLine_mem (m : List (String × List Int)) (f : String)
    (l : Int) : l ∈ (Session.recordLine m f l).2 := by
  unfold Session.recordLine
  dsimp only
  by_cases h : l ∈ (dictGet m f).getD [] <;> simp [h]

theorem recordLine_fst_get (m : List (String × List Int)) (f : String)
    (l : Int) :
    dictGet (Session.recordLine m f l).1 f =
      some (Session.recordLine m f l).2 := by
  unfold Session.recordLine
  dsimp only
  exact dictGet_dictSet m f _

theorem recordLine_after (m : List (String × List Int)) (f : String)
    (l : Int) :
    (Session.recordLine (Session.recordLine m f l).1 f l).2 =
      (Session.recordLine m f l).2 ∧
    dictGet (Session.recordLine (Session.recordLine m f l).1 f l).1 f =
      dictGet (Session.recordLine m f l).1 f := by
  have hget := recordLine_fst_get m f l
  have hmem := recordLine_mem m f l
  have hset : (Session.recordLine (Session.recordLine m f l).1 f l).2 =
      (Session.recordLine m f l).2 := by
    show (if l ∈ (dictGet (Session.recordLine m f l).1 f).getD []
          then (dictGet (Session.recordLine m f l).1 f).getD []
          else (dictGet (Session.recordLine m f l).1 f).getD [] ++ [l]) = _
    rw [hget]
    simp [hmem]
  refine ⟨hset, ?_⟩
  show dictGet (dictSet (Session.recordLine m f l).1 f
      (Session.recordLine (Session.recordLine m f l).1 f l).2) f = _
  rw [dictGet_dictSet, hset, hget]

theorem bpResults_all_verified_iff (bps : List CDP.BpResult) :
    ((bps.filter (fun b => b.verified)).length = bps.length) ↔
      bps.all (fun b => b.verified) = true := by
  induction bps with
  | nil => simp
  | cons b rest ih =>
    by_cases hb : b.verified
    · rw [List.filter_cons_of_pos hb]
      simp only [List.length_cons, Nat.add_right_cancel_iff, List.all_cons,
        hb, Bool.true_and]
      exact ih
    · have hle := List.length_filter_le CDP.BpResult.verified rest
      simp only [List.filter_cons_of_neg (by simpa using hb), hb,
        List.all_cons, Bool.false_and, List.length_cons]
      constructor
      · intro h
        omega
      · intro h
        cases h

theorem setBreakpointsLoop_all_success
    (env : Int → Option CDP.SetBpOutcome) (ls : List Int)
    (h : ∀ l ∈ ls, (env l).isSome = true) :
    (CDP.setBreakpointsLoop env ls).2.2 = ls ∧
    ∀ b ∈ (CDP.setBreakpointsLoop env ls).1, b.verified = true := by
  induction ls with
  | nil => exact ⟨rfl, by intro b hb; cases hb⟩
  | cons l rest ih =>
    have hl := h l (List.mem_cons_self l rest)
    obtain ⟨o, ho⟩ := Option.isSome_iff_exists.mp hl
    obtain ⟨hrest, hres⟩ := ih (fun x hx => h x (List.mem_cons_of_mem l hx))
    unfold CDP.setBreakpointsLoop
    rw [ho]
    dsimp only
    refine ⟨by rw [hrest], ?_⟩
    intro b hb
    rcases List.mem_cons.mp hb with hb | hb
    · subst hb; rfl
    · exact hres b hb

theorem setBreakpointsLoop_mem_fail
    (env : Int → Option CDP.SetBpOutcome) (ls : List Int) (l : Int)
    (hmem : l ∈ ls) (hl : env l = none) :
    CDP.BpResult.mk false l ∈ (CDP.setBreakpointsLoop env ls).1 := by
  induction ls with
  | nil => cases hmem
  | cons a rest ih =>
    rcases List.mem_cons.mp hmem with hla | hla
    · subst hla
      unfold CDP.setBreakpointsLoop
      rw [hl]
      exact List.mem_cons_self _ _
    · unfold CDP.setBreakpointsLoop
      dsimp only
      cases env a with
      | some o => exact List.mem_cons_of_mem _ (ih hla)
      | none => exact List.mem_cons_of_mem _ (ih hla)

/-- C5 counterexample: the claim says every successful `add_breakpoint`
leaves the backend breakpoint set for the file equal to the
session-recorded set.  With a CDP backend that rejects the requested
line, `add_breakpoint` still succeeds (no error; the reply reports
`pending`), the session records the line, but the engine holds no
breakpoint for the file and the client recorded no breakpoint id. -/
theorem claim_C5_backend_set_counterexample :
    pyStartsWith
      (Session.add_breakpoint_cdp [] "/tmp/app.js" 5 (fun _ => none)).reply
      "Error" = false ∧
    (Session.add_breakpoint_cdp [] "/tmp/app.js" 5 (fun _ => none)).reply =
      Session.bpReply "/tmp/app.js" 5 "pending" ∧
    dictGet (Session.add_breakpoint_cdp [] "/tmp/app.js" 5
        (fun _ => none)).recorded "/tmp/app.js" = some [5] ∧
    (Session.add_breakpoint_cdp [] "/tmp/app.js" 5
        (fun _ => none)).engineLines = [] ∧
    (Session.add_breakpoint_cdp [] "/tmp/app.js" 5
        (fun _ => none)).breakpointIds = [] := by
  refine ⟨?_, ?_, ?_, ?_, ?_⟩ <;> decide

/-- C5 amended: `add_breakpoint(f, L)` adds L to the session set for f
only if absent, sends the full current set to the backend, and is
idempotent.  Over a DAP backend a successful call always leaves the
adapter set for f equal to the recorded set, and the reply reports
`verified` exactly when every returned breakpoint is verified.  Over a
CDP backend the engine set for f equals the recorded set — and the
reply reports `verified` — exactly when the engine accepts every line;
a rejected line stays in the recorded set but not in the engine, and
the reply reports `pending`. -/
theorem claim_C5_amended_breakpoint_sync
    (recorded backend : List (String × List Int)) (file : String)
    (line : Int) (bps : List CDP.BpResult)
    (env : Int → Option CDP.SetBpOutcome) :
    (line ∈ (dictGet recorded file).getD [] →
      (Session.recordLine recorded file line).2 =
        (dictGet recorded file).getD []) ∧
    (line ∉ (dictGet recorded file).getD [] →
      (Session.recordLine recorded file line).2 =
        (dictGet recorded file).getD [] ++ [line]) ∧
    dictGet (Session.add_breakpoint_cdp
        (Session.add_breakpoint_cdp recorded file line env).recorded
        file line env).recorded file =
      dictGet (Session.add_breakpoint_cdp recorded file line env).recorded
        file ∧
    dictGet (Session.add_breakpoint_dap
        (Session.add_breakpoint_dap recorded backend file line
          (.ok bps)).recorded
        backend file line (.ok bps)).recorded file =
      dictGet (Session.add_breakpoint_dap recorded backend file line
        (.ok bps)).recorded file ∧
    dictGet (Session.add_breakpoint_dap recorded backend file line
        (.ok bps)).backend file =
      dictGet (Session.add_breakpoint_dap recorded backend file line
        (.ok bps)).recorded file ∧
    (Session.add_breakpoint_dap recorded backend file line (.ok bps)).reply =
      Session.bpReply file line
        (if bps.all (fun b => b.verified) then "verified" else "pending") ∧
    ((∀ l ∈ (Session.recordLine recorded file line).2, (env l).isSome = true) →
      some (Session.add_breakpoint_cdp recorded file line env).engineLines =
        dictGet (Session.add_breakpoint_cdp recorded file line env).recorded
          file ∧
      (Session.add_breakpoint_cdp recorded file line env).reply =
        Session.bpReply file line "verified") ∧
    ((∃ l ∈ (Session.recordLine recorded file line).2, env l = none) →
      (Session.add_breakpoint_cdp recorded file line env).reply =
        Session.bpReply file line "pending") := by
  refine ⟨?_, ?_, ?_, ?_, ?_, ?_, ?_, ?_⟩
  · intro h
    simp [Session.recordLine, h]
  · intro h
    simp [Session.recordLine, h]
  · exact (recordLine_after recorded file line).2
  · exact (recordLine_after recorded file line).2
  · show dictGet (dictSet backend file (Session.recordLine recorded file
        line).2) file = dictGet (Session.recordLine recorded file line).1 file
    rw [dictGet_dictSet, recordLine_fst_get]
  · show Session.bpReply file line
        (if (bps.filter (fun b => b.verified)).length = bps.length
         then "verified" else "pending") = _
    exact congrArg (Session.bpReply file line)
      (if_congr (bpResults_all_verified_iff bps) rfl rfl)
  · intro h
    obtain ⟨hels, hver⟩ := setBreakpointsLoop_all_success env _ h
    constructor
    · show some ((CDP.setBreakpointsLoop env
          (Session.recordLine recorded file line).2).2.2) = _
      rw [hels,
        show (Session.add_breakpoint_cdp recorded file line env).recorded =
          (Session.recordLine recorded file line).1 from rfl,
        recordLine_fst_get]
    · show Session.bpReply file line
          (if ((CDP.setBreakpointsLoop env (Session.recordLine recorded file
            line).2).1.filter (fun b => b.verified)).length =
            (CDP.setBreakpointsLoop env (Session.recordLine recorded file
              line).2).1.length then "verified" else "pending") = _
      rw [if_pos ((bpResults_all_verified_iff _).mpr
        (List.all_eq_true.mpr (by intro b hb; simpa using hver b hb)))]
  · rintro ⟨l, hmem, hl⟩
    have hfail := setBreakpointsLoop_mem_fail env _ l hmem hl
    show Session.bpReply file line
        (if ((CDP.setBreakpointsLoop env (Session.recordLine recorded file
          line).2).1.filter (fun b => b.verified)).length =
          (CDP.setBreakpointsLoop env (Session.recordLine recorded file
            line).2).1.length then "verified" else "pending") = _
    rw [if_neg]
    intro hcon
    have hall := (bpResults_all_verified_iff _).mp hcon
    have := List.all_eq_true.mp hall _ hfail
    simp at this

/-- Witness for C5 amended: a fresh session, one breakpoint, an engine
that accepts the line. -/
theorem claim_C5_amended_breakpoint_sync_witness :
    (Session.recordLine [] "/tmp/app.js" 5).2 = [] ++ [5] ∧
    some (Session.add_breakpoint_cdp [] "/tmp/app.js" 5
        (fun _ => some { breakpointId := "1:4:0", resolvedLine := none })
      ).engineLines =
      dictGet (Session.add_breakpoint_cdp [] "/tmp/app.js" 5
        (fun _ => some { breakpointId := "1:4:0", resolvedLine := none })
      ).recorded "/tmp/app.js" ∧
    (Session.add_breakpoint_cdp [] "/tmp/app.js" 5
        (fun _ => some { breakpointId := "1:4:0", resolvedLine := none })
      ).reply =
      Session.bpReply "/tmp/app.js" 5 "verified" := by
  have h := claim_C5_amended_breakpoint_sync [] [] "/tmp/app.js" 5 []
    (fun _ => some { breakpointId := "1:4:0", resolvedLine := none })
  have he := h.2.2.2.2.2.2.1 (by decide)
  exact ⟨h.2.1 (by decide), he.1, he.2⟩

end DebuggerCore
